import Mathlib

/-!
# Vyralflow AI — campaign orchestration: embedding and verification

A shallow embedding of the campaign-orchestration data model and operations
of the Vyralflow AI repository, together with theorems settling the frozen
claims about it.

The repository ships the React frontend (`src/frontend/src/...`): the
TypeScript data model (`types/campaign.ts`), the API client
(`services/api.ts`), the polling hooks (`hooks/useCampaign.ts`) and the
pages (`CampaignCreate.tsx`, `CampaignDashboard.tsx`, `CampaignResults.tsx`).
The Python backend (the FastAPI orchestrator, agents and store referenced by
`requirements.txt` and the README) is not part of the shipped sources, so
backend operations are modelled from the specification; each such definition
carries a doc comment starting with `Modelled from the spec:`.
-/

namespace Vyralflow

/-! ## Data model (from `src/frontend/src/types/campaign.ts`) -/

/-- `AgentProgress.agent_name` union type (`types/campaign.ts`, lines 24-28). -/
inductive AgentName where
  | trend_analyzer
  | content_writer
  | visual_designer
  | campaign_scheduler
deriving DecidableEq, Repr

/-- `AgentProgress.status` union type (`types/campaign.ts`, line 29). -/
inductive AgentStatus where
  | pending
  | running
  | completed
  | error
deriving DecidableEq, Repr

/-- Campaign status. The spec's data model (§3) gives the full set
`{pending, processing, completed, failed}`; the frontend response type
(`types/campaign.ts`, line 16) names the subset it ever renders. -/
inductive CampaignStatus where
  | pending
  | processing
  | completed
  | failed
deriving DecidableEq, Repr

/-- `AgentProgress` (`types/campaign.ts`, lines 23-33). The TypeScript field
`ai_generated?: boolean` is optional on the wire; the spec's data model (§3)
declares it a plain boolean, which is what the backend snapshot carries, so it
is embedded as `Bool` (`false` until a stage result exists). -/
structure AgentProgress where
  agent_name : AgentName
  status : AgentStatus
  progress_percentage : Nat
  message : String
  ai_generated : Bool
deriving DecidableEq, Repr

/-- `CampaignRequest` (`types/campaign.ts`, lines 2-11). Optional TypeScript
fields become `Option`; a missing required string behaves like `""` under the
JavaScript truthiness checks used by the form (both are falsy). -/
structure CampaignRequest where
  business_name : String
  industry : String
  campaign_goal : String
  target_platforms : List String
  brand_voice : String
  target_audience : Option String
  keywords : Option (List String)
  budget_range : Option String
deriving DecidableEq, Repr

/-- `TrendingTopic` (`types/campaign.ts`, lines 52-56). -/
structure TrendingTopic where
  topic : String
  relevance_score : Nat
  trend_type : String
deriving DecidableEq, Repr

/-- `TrendAnalysis` (`types/campaign.ts`, lines 45-50). -/
structure TrendAnalysis where
  trending_topics : List TrendingTopic
  viral_probability : String
  peak_engagement_window : String
  trending_hashtags : List String
deriving DecidableEq, Repr

/-- `SocialMediaPost` (`types/campaign.ts`, lines 67-73). -/
structure SocialMediaPost where
  text : String
  hashtags : List String
  character_count : Nat
  viral_elements : List String
deriving DecidableEq, Repr

/-- `PlatformContent` (`types/campaign.ts`, lines 59-65): a per-platform map
of posts, embedded as an association list keyed by platform id (the frontend
iterates it with `Object.entries`). -/
abbrev PlatformContent := List (String × SocialMediaPost)

/-- `UnsplashImage` (`types/campaign.ts`, lines 82-92). -/
structure UnsplashImage where
  id : String
  url : String
  photographer : String
  description : String
  likes : Nat
deriving DecidableEq, Repr

/-- `VisualAssets` (`types/campaign.ts`, lines 76-80). -/
structure VisualAssets where
  image_suggestions : List UnsplashImage
  recommended_style : String
  color_palette : List String
deriving DecidableEq, Repr

/-- `OptimalTime` (`types/campaign.ts`, lines 102-107). -/
structure OptimalTime where
  platform : String
  day : String
  time : String
  engagement_score : Nat
deriving DecidableEq, Repr

/-- `SchedulingData` (`types/campaign.ts`, lines 95-100). -/
structure SchedulingData where
  optimal_times : List OptimalTime
  best_days : List String
  posting_frequency : String
  timezone : String
deriving DecidableEq, Repr

/-- `MetricsBreakdown` (`types/campaign.ts`, lines 119-124). -/
structure MetricsBreakdown where
  likes_estimate : String
  shares_estimate : String
  comments_estimate : String
  impressions_estimate : String
deriving DecidableEq, Repr

/-- `PerformancePredictions` (`types/campaign.ts`, lines 110-117). -/
structure PerformancePredictions where
  viral_probability : String
  estimated_reach : String
  engagement_rate : String
  roi_prediction : String
  confidence_score : Nat
  metrics_breakdown : MetricsBreakdown
deriving DecidableEq, Repr

/-- `CampaignResults` (`types/campaign.ts`, lines 36-42): the aggregate served
by `get_results`, with exactly the five fields `trends`, `content`, `visuals`,
`schedule`, `performance_predictions`. -/
structure CampaignResults where
  trends : TrendAnalysis
  content : PlatformContent
  visuals : VisualAssets
  schedule : SchedulingData
  performance_predictions : PerformancePredictions
deriving DecidableEq

/-! ## Frontend form logic (from `src/frontend/src/pages/CampaignCreate.tsx`) -/

/-- `handlePlatformToggle` (`CampaignCreate.tsx`, lines 137-144): if the
platform id is already in `target_platforms` it is filtered out, otherwise it
is appended at the end. -/
def handlePlatformToggle (currentPlatforms : List String) (platformId : String) :
    List String :=
  if platformId ∈ currentPlatforms then
    currentPlatforms.filter (fun p => p ≠ platformId)
  else
    currentPlatforms ++ [platformId]

/-- `isFormValid` (`CampaignCreate.tsx`, lines 187-196): JavaScript truthiness
of each required field — non-empty `business_name`, `industry`,
`campaign_goal`, `brand_voice`, and a non-empty `target_platforms` list. -/
def isFormValid (f : CampaignRequest) : Bool :=
  f.business_name ≠ "" && f.industry ≠ "" && f.campaign_goal ≠ "" &&
    !f.target_platforms.isEmpty && f.brand_voice ≠ ""

/-! ## API client (from `src/frontend/src/services/api.ts`) -/

/-- `API_BASE_URL` (`api.ts`, line 7). -/
def API_BASE_URL : String := "http://localhost:8000/api"

/-- A JSON value as produced by `response.json()`. `null` is a first-class
value; `undefined` never comes out of JSON parsing, so `null` covers the
`data === null || data === undefined` guard. -/
inductive Json where
  | null
  | bool (b : Bool)
  | num (n : Int)
  | str (s : String)
  | arr (xs : List Json)
  | obj (fields : List (String × Json))

/-- The `data === null || data === undefined` test of `apiCall`
(`api.ts`, line 43). -/
def Json.isNull : Json → Bool
  | .null => true
  | _ => false

/-- The HTTP response as `apiCall` observes it: `ok`, `status`, `statusText`
and the outcome of `response.json()` (`Except` error on a body that fails to
parse, which `apiCall` rethrows). -/
structure HttpResponse where
  ok : Bool
  status : Nat
  statusText : String
  body : Except String Json

/-- What a `fetch` attempt can come back with: a response, the 30-second
abort, or a network-level failure. -/
inductive FetchOutcome where
  | response (r : HttpResponse)
  | abortTimeout
  | networkFailure

/-- `apiCall` (`api.ts`, lines 10-63) as a pure function of the fetch
outcome: HTTP error statuses map to thrown `Error`s (404, 500, 422, generic),
a `null`/`undefined` parsed body throws `"API returned empty response"`, and
only a non-null parsed body is returned. Abort and network failures are
rethrown with their own messages. -/
def apiCall (endpoint : String) (outcome : FetchOutcome) : Except String Json :=
  match outcome with
  | .abortTimeout =>
      .error ("Request timeout: " ++ endpoint ++ " took longer than 30 seconds")
  | .networkFailure =>
      .error ("Network error: Unable to reach server at " ++ API_BASE_URL)
  | .response r =>
      if !r.ok then
        if r.status = 404 then
          .error ("Endpoint not found: " ++ endpoint)
        else if r.status = 500 then
          .error ("Server error: " ++ r.statusText)
        else if r.status = 422 then
          .error "Validation error"
        else
          .error ("API call failed: " ++ toString r.status ++ " " ++ r.statusText)
      else
        match r.body with
        | .error e => .error e
        | .ok data =>
            if data.isNull then .error "API returned empty response"
            else .ok data

/-! ## Status polling (from `src/frontend/src/hooks/useCampaign.ts`) -/

/-- The slice of react-query state that `refetchInterval` inspects:
`query.state.error` and `query.state.data?.status`. -/
structure QueryState where
  hasError : Bool
  dataStatus : Option CampaignStatus
deriving DecidableEq, Repr

/-- `refetchInterval` of `useCampaignStatus` (`useCampaign.ts`, lines 29-41):
returns `false` (here `none`) when the last fetch errored, `3000` when the
latest snapshot is `processing`, and `false` otherwise. -/
def refetchInterval (q : QueryState) : Option Nat :=
  if q.hasError then none
  else if q.dataStatus = some CampaignStatus.processing then some 3000
  else none

/-- The polling trace of `useCampaignStatus`: `fetches n` is the query state
after the `n`-th fetch; a further fetch happens only while `refetchInterval`
of the last observed state returns an interval, so the observed state freezes
as soon as it returns `none`. -/
def polledState (fetches : Nat → QueryState) : Nat → QueryState
  | 0 => fetches 0
  | n + 1 =>
      if (refetchInterval (polledState fetches n)).isSome then
        fetches (n + 1)
      else
        polledState fetches n

/-! ## Dashboard force-complete gate
(from `src/frontend/src/pages/CampaignDashboard.tsx`) -/

/-- The `disabled` condition of the Force Complete button
(`CampaignDashboard.tsx`, lines 406-408):
`campaign.status !== "processing" || forceComplete.isPending`. -/
def forceCompleteDisabled (status : CampaignStatus) (isMutationPending : Bool) :
    Bool :=
  status ≠ CampaignStatus.processing || isMutationPending

/-! ## Orchestrator model

The Python backend (orchestrator, agents, store) is not among the shipped
sources; the definitions below are modelled from the specification (§3-§4, §6,
§8) and are marked as such. -/

/-- Modelled from the spec: the error taxonomy of §7 — `ValidationError`,
`NotFound`, `NotReady`; `invalidState` covers `force_complete` outside the
states §4.4 describes. -/
inductive ApiError where
  | validationError
  | notFound
  | notReady
  | invalidState
deriving DecidableEq, Repr

/-- Modelled from the spec (§3, §4.1): brief validation — non-empty business
name, industry and campaign goal, and at least one target platform. -/
def validBrief (b : CampaignRequest) : Bool :=
  b.business_name ≠ "" && b.industry ≠ "" && b.campaign_goal ≠ "" &&
    !b.target_platforms.isEmpty

/-- The fixed dependency order of the four stages (spec §3 and the
`agentIcons` table of `AgentProgressCard.tsx`, lines 29-34). -/
def fixedAgentOrder : List AgentName :=
  [AgentName.trend_analyzer, AgentName.content_writer,
   AgentName.visual_designer, AgentName.campaign_scheduler]

/-- Modelled from the spec (§4.1): the four `pending` `AgentProgress` entries
a fresh campaign starts with, in fixed dependency order. -/
def initialAgentProgress : List AgentProgress :=
  fixedAgentOrder.map (fun a =>
    { agent_name := a, status := AgentStatus.pending, progress_percentage := 0,
      message := "Waiting to start", ai_generated := false })

/-- Modelled from the spec (§3): the Campaign record — identifier, status,
timestamps, the 4 `AgentProgress` entries, the originating brief (needed by
the fallback generators), and the aggregated result, populated only once the
pipeline is terminal. -/
structure Campaign where
  campaign_id : String
  status : CampaignStatus
  created_at : Nat
  completed_at : Option Nat
  agent_progress : List AgentProgress
  request : CampaignRequest
  results : Option CampaignResults

/-- Modelled from the spec (§4.1): the Campaign that `submit` creates —
`pending` status, 4 `pending` entries, no completion data yet. -/
def newCampaign (b : CampaignRequest) (id : String) (now : Nat) : Campaign :=
  { campaign_id := id, status := CampaignStatus.pending, created_at := now,
    completed_at := none, agent_progress := initialAgentProgress,
    request := b, results := none }

/-- Modelled from the spec (§2): the CampaignStore as a mapping from campaign
identifier to record, embedded as an association list. -/
def CampaignStore := List (String × Campaign)

/-- Modelled from the spec (§4.3): `CampaignStore.get`-style lookup. -/
def lookupCampaign : CampaignStore → String → Option Campaign
  | [], _ => none
  | (k, c) :: rest, id => if k = id then some c else lookupCampaign rest id

/-- Modelled from the spec (§4.1): `submit(brief)` — validates the brief and
fails with `ValidationError` (creating nothing) otherwise; on success persists
a fresh `pending` campaign and returns its identifier immediately. -/
def submit (store : CampaignStore) (b : CampaignRequest) (id : String)
    (now : Nat) : Except ApiError (CampaignStore × String) :=
  if validBrief b then
    Except.ok ((id, newCampaign b id now) :: store, id)
  else
    Except.error ApiError.validationError

/-- Pointwise update of the single `AgentProgress` entry with the given
name; every mutation of the progress list goes through this map, so the list
is never reordered or resized. -/
def updateAgent (l : List AgentProgress) (a : AgentName)
    (f : AgentProgress → AgentProgress) : List AgentProgress :=
  l.map (fun p =>
    if p.agent_name = a then
      let q := f p
      { q with agent_name := p.agent_name }
    else p)

/-- Modelled from the spec (§4.1, §4.2, §4.4): the operations the
Orchestrator's background task and ForceCompletion apply to one Campaign
record through the store's atomic mutate. -/
inductive Op where
  /-- The background task starts: `pending` → `processing` (§3). -/
  | beginRun
  /-- A stage is about to run: its entry becomes `running` (§4.1). -/
  | startStage (a : AgentName)
  /-- Incremental progress emission (§4.2). -/
  | reportProgress (a : AgentName) (pct : Nat) (msg : String)
  /-- Stage ended with a result; `ai` records real-vs-fallback origin
  (§4.1, §4.3). -/
  | completeStage (a : AgentName) (ai : Bool)
  /-- Unrecoverable stage failure after fallback (§4.1). -/
  | failStage (a : AgentName) (msg : String)
  /-- All stages terminal: record the aggregate and mark the campaign
  `completed` (§4.1). -/
  | finalize (now : Nat) (r : CampaignResults)
  /-- ForceCompletion / overall-deadline path: fallback-complete every
  non-terminal entry and mark the campaign `completed` (§4.1, §4.4). -/
  | forceAll (now : Nat) (r : CampaignResults)

/-- Modelled from the spec: how each `Op` rewrites the Campaign record. -/
def applyOp (c : Campaign) : Op → Campaign
  | Op.beginRun => { c with status := CampaignStatus.processing }
  | Op.startStage a =>
      { c with agent_progress := updateAgent c.agent_progress a (fun p =>
          { p with status := AgentStatus.running,
                   message := "Working" }) }
  | Op.reportProgress a pct msg =>
      { c with agent_progress := updateAgent c.agent_progress a (fun p =>
          { p with progress_percentage := pct, message := msg }) }
  | Op.completeStage a ai =>
      { c with agent_progress := updateAgent c.agent_progress a (fun p =>
          { p with status := AgentStatus.completed, progress_percentage := 100,
                   message := "Completed", ai_generated := ai }) }
  | Op.failStage a msg =>
      { c with agent_progress := updateAgent c.agent_progress a (fun p =>
          { p with status := AgentStatus.error, message := msg }) }
  | Op.finalize now r =>
      { c with status := CampaignStatus.completed, completed_at := some now,
               results := some r }
  | Op.forceAll now r =>
      { c with
          status := CampaignStatus.completed,
          completed_at := some now,
          results := some r,
          agent_progress := c.agent_progress.map (fun p =>
            if p.status = AgentStatus.pending ∨ p.status = AgentStatus.running
            then { p with status := AgentStatus.completed,
                          progress_percentage := 100,
                          message := "Completed", ai_generated := false }
            else p) }

/-! ## Stage execution, fallbacks and results -/

/-- Modelled from the spec (§4.2): the StageRunner outcome combinator — a
validated external result is used and tagged `ai_generated = true`; a failed
call or a result rejected at the validation boundary (§9) is replaced by the
deterministic fallback, tagged `ai_generated = false`. -/
def runStageOutcome {α : Type} (external : Option α) (valid : α → Bool)
    (fallbackResult : α) : α × Bool :=
  match external with
  | some r => if valid r then (r, true) else (fallbackResult, false)
  | none => (fallbackResult, false)

/-- Modelled from the spec (§4.2): the content-generation fallback — a
templated per-platform post whose `character_count` is the length of its
text. -/
def fallbackPost (b : CampaignRequest) (platform : String) : SocialMediaPost :=
  let text :=
    "Exciting news from " ++ b.business_name ++ "! " ++ b.campaign_goal ++
      " — follow us on " ++ platform ++ "."
  { text := text, hashtags := ["#" ++ platform, "#" ++ b.industry],
    character_count := text.length,
    viral_elements := ["call to action", "brand mention"] }

/-- Modelled from the spec (§4.2): fallback content for every target
platform of the brief. -/
def fallbackContent (b : CampaignRequest) : PlatformContent :=
  b.target_platforms.map (fun pl => (pl, fallbackPost b pl))

/-- Key lookup in a `PlatformContent` map. -/
def findPost : PlatformContent → String → Option SocialMediaPost
  | [], _ => none
  | (k, p) :: rest, pl => if k = pl then some p else findPost rest pl

/-- The per-post schema contract of §6 and §8: non-empty `text` and a
`character_count` equal to the length of the text. -/
def validPost (p : SocialMediaPost) : Bool :=
  p.text ≠ "" && p.character_count = p.text.length

/-- Whether a content map carries a schema-valid post under the given
platform key. -/
def contentHasValidPost (m : PlatformContent) (pl : String) : Bool :=
  match findPost m pl with
  | some p => validPost p
  | none => false

/-- Modelled from the spec (§9): the validation boundary after the content
generation call — the external map must carry a schema-valid post for every
target platform, and every entry of the map must itself be schema-valid
(malformed-but-200 responses are rejected wholesale rather than passing
malformed data downstream); otherwise the stage falls back. -/
def validContent (b : CampaignRequest) (m : PlatformContent) : Bool :=
  b.target_platforms.all (fun pl => contentHasValidPost m pl) &&
    m.all (fun kv => validPost kv.2)

/-- Modelled from the spec (§4.2, §6): the content-generation stage. -/
def contentStage (b : CampaignRequest) (external : Option PlatformContent) :
    PlatformContent × Bool :=
  runStageOutcome external (validContent b) (fallbackContent b)

/-- Modelled from the spec (§4.2): the trend-discovery fallback — a generic
topic list. -/
def fallbackTrends (b : CampaignRequest) : TrendAnalysis :=
  { trending_topics :=
      [{ topic := b.industry ++ " innovation", relevance_score := 75,
         trend_type := "stable" }],
    viral_probability := "60%",
    peak_engagement_window := "6-9 PM",
    trending_hashtags := ["#" ++ b.industry, "#trending"] }

/-- Modelled from the spec (§4.2): the visual-curation fallback — a default
color palette and placeholder image list. -/
def fallbackVisuals (b : CampaignRequest) : VisualAssets :=
  { image_suggestions :=
      [{ id := "placeholder-1", url := "https://example.com/placeholder.jpg",
         photographer := "Stock", description := b.industry ++ " visual",
         likes := 0 }],
    recommended_style := "clean and modern",
    color_palette := ["#4A90D9", "#FFFFFF", "#333333"] }

/-- Modelled from the spec (§4.2): the schedule-optimization fallback — a
generic posting schedule over the brief's platforms. -/
def fallbackSchedule (b : CampaignRequest) : SchedulingData :=
  { optimal_times := b.target_platforms.map (fun pl =>
      { platform := pl, day := "Wednesday", time := "18:00",
        engagement_score := 70 }),
    best_days := ["Tuesday", "Wednesday", "Thursday"],
    posting_frequency := "3 times per week",
    timezone := "UTC" }

/-- Modelled from the spec (§6): the performance-prediction block of the
aggregate. -/
def defaultPredictions : PerformancePredictions :=
  { viral_probability := "60%", estimated_reach := "10K+",
    engagement_rate := "4%", roi_prediction := "150%",
    confidence_score := 70,
    metrics_breakdown :=
      { likes_estimate := "1K+", shares_estimate := "200+",
        comments_estimate := "100+", impressions_estimate := "15K+" } }

/-- Modelled from the spec (§4.4): the all-fallback aggregate used when a
campaign is force-completed. -/
def fallbackResults (b : CampaignRequest) : CampaignResults :=
  { trends := fallbackTrends b, content := fallbackContent b,
    visuals := fallbackVisuals b, schedule := fallbackSchedule b,
    performance_predictions := defaultPredictions }

/-- Modelled from the spec (§6): what the four external collaborators came
back with for one campaign (`none` = the call failed even after retry). -/
structure ExternalOutcomes where
  trends : Option TrendAnalysis
  content : Option PlatformContent
  visuals : Option VisualAssets
  schedule : Option SchedulingData

/-- Modelled from the spec (§4.1): the ordered operation list the background
task applies — begin, then the four stages strictly in sequence, then the
final aggregate. -/
def runOps (b : CampaignRequest) (ext : ExternalOutcomes) (now : Nat) :
    List Op :=
  let t := runStageOutcome ext.trends (fun _ => true) (fallbackTrends b)
  let ct := contentStage b ext.content
  let v := runStageOutcome ext.visuals (fun _ => true) (fallbackVisuals b)
  let s := runStageOutcome ext.schedule (fun _ => true) (fallbackSchedule b)
  [Op.beginRun,
   Op.startStage AgentName.trend_analyzer,
   Op.completeStage AgentName.trend_analyzer t.2,
   Op.startStage AgentName.content_writer,
   Op.completeStage AgentName.content_writer ct.2,
   Op.startStage AgentName.visual_designer,
   Op.completeStage AgentName.visual_designer v.2,
   Op.startStage AgentName.campaign_scheduler,
   Op.completeStage AgentName.campaign_scheduler s.2,
   Op.finalize now
     { trends := t.1, content := ct.1, visuals := v.1, schedule := s.1,
       performance_predictions := defaultPredictions }]

/-- Modelled from the spec (§2, §4.1): the complete background execution of
one campaign, from the freshly created record to the terminal one. -/
def runCampaign (b : CampaignRequest) (ext : ExternalOutcomes) (id : String)
    (now : Nat) : Campaign :=
  (runOps b ext now).foldl applyOp (newCampaign b id now)

/-! ## Read API and ForceCompletion -/

/-- Modelled from the spec (§6): `get_status(campaign_id)` — the current
snapshot, `NotFound` for an unknown id. -/
def get_status (store : CampaignStore) (id : String) :
    Except ApiError Campaign :=
  match lookupCampaign store id with
  | none => Except.error ApiError.notFound
  | some c => Except.ok c

/-- Modelled from the spec (§6): `get_results(campaign_id)` — `NotFound` for
an unknown id, `NotReady` unless the campaign is `completed`, otherwise the
aggregated `CampaignResults`. -/
def get_results (store : CampaignStore) (id : String) :
    Except ApiError CampaignResults :=
  match lookupCampaign store id with
  | none => Except.error ApiError.notFound
  | some c =>
      if c.status = CampaignStatus.completed then
        match c.results with
        | some r => Except.ok r
        | none => Except.error ApiError.notReady
      else Except.error ApiError.notReady

/-- Replace the record stored under `id`. -/
def updateStore (store : CampaignStore) (id : String) (c : Campaign) :
    CampaignStore :=
  store.map (fun kv => if kv.1 = id then (kv.1, c) else kv)

/-- Modelled from the spec (§4.4): `force_complete(id)` — `NotFound` for an
unknown id; a no-op returning the stored snapshot unchanged on an already
`completed` campaign; on a `processing` campaign every non-terminal entry is
fallback-completed and the campaign is marked `completed` with
`completed_at = now`; it is not valid in any other state. -/
def force_complete (store : CampaignStore) (id : String) (now : Nat) :
    Except ApiError (CampaignStore × Campaign) :=
  match lookupCampaign store id with
  | none => Except.error ApiError.notFound
  | some c =>
      if c.status = CampaignStatus.completed then
        Except.ok (store, c)
      else if c.status = CampaignStatus.processing then
        let c' := applyOp c (Op.forceAll now (fallbackResults c.request))
        Except.ok (updateStore store id c', c')
      else
        Except.error ApiError.invalidState

/-! ## Derived observations and concrete fixtures -/

/-- The agent-kind sequence of a progress list. -/
def agentNames (l : List AgentProgress) : List AgentName :=
  l.map (fun p => p.agent_name)

/-- The `(agent kind, ai_generated)` pairs of a progress list. -/
def agentFlags (l : List AgentProgress) : List (AgentName × Bool) :=
  l.map (fun p => (p.agent_name, p.ai_generated))

/-- The concrete scenario brief of spec §8. -/
def cozyBrief : CampaignRequest :=
  { business_name := "Cozy Coffee Shop", industry := "food & beverage",
    campaign_goal := "promote seasonal latte",
    target_platforms := ["instagram", "twitter"],
    brand_voice := "friendly", target_audience := none, keywords := none,
    budget_range := none }

/-- Total external-service failure: every collaborator call fails. -/
def noExternal : ExternalOutcomes :=
  { trends := none, content := none, visuals := none, schedule := none }

/-! ## Helper lemmas -/

theorem updateAgent_agentNames (l : List AgentProgress) (a : AgentName)
    (f : AgentProgress → AgentProgress) :
    agentNames (updateAgent l a f) = agentNames l := by
  simp only [agentNames, updateAgent, List.map_map]
  refine List.map_congr_left (fun p _ => ?_)
  by_cases h : p.agent_name = a <;> simp [h]

theorem applyOp_agentNames (c : Campaign) (op : Op) :
    agentNames (applyOp c op).agent_progress = agentNames c.agent_progress := by
  cases op with
  | beginRun => rfl
  | startStage a => exact updateAgent_agentNames _ _ _
  | reportProgress a pct msg => exact updateAgent_agentNames _ _ _
  | completeStage a ai => exact updateAgent_agentNames _ _ _
  | failStage a msg => exact updateAgent_agentNames _ _ _
  | finalize now r => rfl
  | forceAll now r =>
      simp only [applyOp, agentNames, List.map_map]
      refine List.map_congr_left (fun p _ => ?_)
      by_cases h : p.status = AgentStatus.pending ∨ p.status = AgentStatus.running <;>
        simp [h]

theorem foldl_applyOp_agentNames (ops : List Op) (c : Campaign) :
    agentNames (ops.foldl applyOp c).agent_progress =
      agentNames c.agent_progress := by
  induction ops generalizing c with
  | nil => rfl
  | cons op rest ih => rw [List.foldl_cons, ih, applyOp_agentNames]

theorem newCampaign_agentNames (b : CampaignRequest) (id : String) (now : Nat) :
    agentNames (newCampaign b id now).agent_progress = fixedAgentOrder := by
  simp [newCampaign, initialAgentProgress, agentNames, List.map_map]
  rfl

theorem agentNames_length (l : List AgentProgress) :
    l.length = (agentNames l).length := by
  simp [agentNames]

/-! ## Claims -/

/-- C1: for every campaign and every status snapshot of it, the
`agent_progress` sequence has exactly 4 entries, in the fixed order
trend_analyzer, content_writer, visual_designer, campaign_scheduler, and no
operation ever reorders or resizes it: a freshly submitted campaign starts
with that sequence, every single operation preserves the agent-kind sequence
exactly, and any sequence of operations leaves 4 entries in fixed order. -/
theorem c1_agent_progress_fixed (c : Campaign) (op : Op) (ops : List Op)
    (b : CampaignRequest) (id : String) (now : Nat) :
    agentNames (applyOp c op).agent_progress = agentNames c.agent_progress ∧
    agentNames (newCampaign b id now).agent_progress = fixedAgentOrder ∧
    (newCampaign b id now).agent_progress.length = 4 ∧
    agentNames (ops.foldl applyOp (newCampaign b id now)).agent_progress =
      fixedAgentOrder ∧
    (ops.foldl applyOp (newCampaign b id now)).agent_progress.length = 4 := by
  have hnew := newCampaign_agentNames b id now
  have hfold := foldl_applyOp_agentNames ops (newCampaign b id now)
  refine ⟨applyOp_agentNames c op, hnew, ?_, ?_, ?_⟩
  · rw [agentNames_length, hnew]; rfl
  · rw [hfold, hnew]
  · rw [agentNames_length, hfold, hnew]; rfl

/-- C2: `submit` creates a campaign exactly for briefs with non-empty
business name, industry and campaign goal and at least one target platform;
any brief violating one of these fails with `ValidationError` and nothing is
created; and the frontend form gate `isFormValid` only lets through briefs
that satisfy this validation. -/
theorem c2_submit_validation (store : CampaignStore) (b : CampaignRequest)
    (id : String) (now : Nat) :
    (validBrief b = true ↔
      (b.business_name ≠ "" ∧ b.industry ≠ "" ∧ b.campaign_goal ≠ "" ∧
        b.target_platforms ≠ [])) ∧
    (validBrief b = true →
      submit store b id now =
        Except.ok ((id, newCampaign b id now) :: store, id)) ∧
    (validBrief b = false →
      submit store b id now = Except.error ApiError.validationError) ∧
    (isFormValid b = true → validBrief b = true) := by
  refine ⟨?_, fun h => by simp [submit, h], fun h => by simp [submit, h], fun h => ?_⟩
  · simp [validBrief, List.isEmpty_iff, and_assoc]
  · simp only [isFormValid, Bool.and_eq_true] at h
    simp [validBrief, h.1.1.1.1, h.1.1.1.2, h.1.1.2, h.1.2]

/-- C2 witness: the cozy-coffee brief of spec §8 passes validation and is
created as a `pending` campaign. -/
theorem c2_submit_validation_witness :
    submit [] cozyBrief "c2" 0 =
      Except.ok ([("c2", newCampaign cozyBrief "c2" 0)], "c2") :=
  (c2_submit_validation [] cozyBrief "c2" 0).2.1 (by decide)

/-- C5: the campaign status domain is exactly
`{pending, processing, completed, failed}`, and a campaign created by
`submit` is `pending` before its background task has run anything. -/
theorem c5_status_domain (store : CampaignStore) (b : CampaignRequest)
    (id : String) (now : Nat) :
    (∀ s : CampaignStatus,
      s = CampaignStatus.pending ∨ s = CampaignStatus.processing ∨
        s = CampaignStatus.completed ∨ s = CampaignStatus.failed) ∧
    (newCampaign b id now).status = CampaignStatus.pending ∧
    (validBrief b = true →
      submit store b id now =
        Except.ok ((id, newCampaign b id now) :: store, id) ∧
      lookupCampaign ((id, newCampaign b id now) :: store) id =
        some (newCampaign b id now)) := by
  refine ⟨fun s => by cases s <;> simp, rfl, fun h => ⟨by simp [submit, h], ?_⟩⟩
  simp [lookupCampaign]

/-- C5 witness: the cozy-coffee brief is accepted and its stored record is
the `pending` fresh campaign. -/
theorem c5_status_domain_witness :
    (newCampaign cozyBrief "c5" 7).status = CampaignStatus.pending ∧
    submit [] cozyBrief "c5" 7 =
      Except.ok ([("c5", newCampaign cozyBrief "c5" 7)], "c5") := by
  have h := c5_status_domain [] cozyBrief "c5" 7
  exact ⟨h.2.1, (h.2.2 (by decide)).1⟩

/-- A concrete already-`completed` campaign record, for exercising the
terminal branches of the API operations. -/
def doneCampaign : Campaign :=
  { newCampaign cozyBrief "done" 3 with
      status := CampaignStatus.completed, completed_at := some 42,
      results := some (fallbackResults cozyBrief) }

/-- C3: `force_complete` is enabled in the dashboard only while the campaign
is `processing` (and no mutation is in flight); on an already-`completed`
campaign it is a no-op returning the stored snapshot — and so its
`completed_at` — unchanged; on an unknown id it fails with `NotFound`. -/
theorem c3_force_complete (store : CampaignStore) (id : String) (now : Nat) :
    (lookupCampaign store id = none →
      force_complete store id now = Except.error ApiError.notFound) ∧
    (∀ c, lookupCampaign store id = some c →
      c.status = CampaignStatus.completed →
      force_complete store id now = Except.ok (store, c)) ∧
    (∀ st pend, forceCompleteDisabled st pend = false →
      st = CampaignStatus.processing ∧ pend = false) := by
  refine ⟨fun h => by simp [force_complete, h], fun c hc hs => ?_, fun st pend h => ?_⟩
  · simp [force_complete, hc, hs]
  · cases st <;> cases pend <;> simp_all [forceCompleteDisabled]

/-- C3 witness: on a store holding one already-`completed` campaign,
`force_complete` returns the store and snapshot unchanged, `completed_at`
included. -/
theorem c3_force_complete_witness :
    force_complete [("done", doneCampaign)] "done" 100 =
      Except.ok ([("done", doneCampaign)], doneCampaign) ∧
    doneCampaign.completed_at = some 42 :=
  ⟨(c3_force_complete [("done", doneCampaign)] "done" 100).2.1
      doneCampaign rfl rfl, rfl⟩

/-- C4: `get_status` and `get_results` fail with `NotFound` on an unknown id;
`get_results` fails with `NotReady` whenever the campaign is not `completed`;
for a known `completed` campaign carrying its aggregate it returns that
aggregate, a record of exactly the five fields `trends`, `content`,
`visuals`, `schedule`, `performance_predictions`; and every campaign the
background run completes does carry an aggregate. -/
theorem c4_results_errors (store : CampaignStore) (id : String) :
    (lookupCampaign store id = none →
      get_status store id = Except.error ApiError.notFound ∧
      get_results store id = Except.error ApiError.notFound) ∧
    (∀ c, lookupCampaign store id = some c →
      c.status ≠ CampaignStatus.completed →
      get_results store id = Except.error ApiError.notReady) ∧
    (∀ c r, lookupCampaign store id = some c →
      c.status = CampaignStatus.completed → c.results = some r →
      get_results store id = Except.ok r ∧
      r = ⟨r.trends, r.content, r.visuals, r.schedule,
            r.performance_predictions⟩) ∧
    (∀ b ext cid now,
      (runCampaign b ext cid now).status = CampaignStatus.completed ∧
      ((runCampaign b ext cid now).results).isSome = true) := by
  refine ⟨fun h => ⟨by simp [get_status, h], by simp [get_results, h]⟩,
    fun c hc hs => by simp [get_results, hc, hs],
    fun c r hc hs hr => ⟨by simp [get_results, hc, hs, hr], rfl⟩,
    fun b ext cid now => ⟨rfl, rfl⟩⟩

/-- C4 witness: on a store holding one `completed` campaign with its
aggregate, `get_results` returns that aggregate; on the empty store both
reads fail with `NotFound`. -/
theorem c4_results_errors_witness :
    get_results [("done", doneCampaign)] "done" =
      Except.ok (fallbackResults cozyBrief) ∧
    get_status [] "missing" = Except.error ApiError.notFound ∧
    get_results [] "missing" = Except.error ApiError.notFound := by
  have h1 := (c4_results_errors [("done", doneCampaign)] "done").2.2.1
    doneCampaign (fallbackResults cozyBrief) rfl rfl rfl
  have h2 := (c4_results_errors [] "missing").1 rfl
  exact ⟨h1.1, h2.1, h2.2⟩

/-- C6: the status poller's `refetchInterval` schedules a refetch of exactly
3000 milliseconds precisely when no fetch error has occurred and the latest
snapshot is `processing` (it never yields any other interval), and once it
yields no interval — terminal status or error — the observed state is frozen:
polling never resumes for that campaign. -/
theorem c6_polling_stops (f : Nat → QueryState) (n : Nat) :
    (∀ q : QueryState,
      refetchInterval q = some 3000 ↔
        (q.hasError = false ∧ q.dataStatus = some CampaignStatus.processing)) ∧
    (∀ q : QueryState,
      refetchInterval q = none ∨ refetchInterval q = some 3000) ∧
    (refetchInterval (polledState f n) = none →
      ∀ m, n ≤ m → polledState f m = polledState f n) := by
  refine ⟨fun q => ?_, fun q => ?_, fun hstop m hm => ?_⟩
  · unfold refetchInterval
    rcases q with ⟨he, hd⟩
    cases he
    · by_cases hp : hd = some CampaignStatus.processing <;> simp [hp]
    · simp
  · unfold refetchInterval
    split
    · exact Or.inl rfl
    · split
      · exact Or.inr rfl
      · exact Or.inl rfl
  · induction m with
    | zero =>
        have : n = 0 := Nat.le_zero.mp hm
        rw [this]
    | succ k ih =>
        rcases Nat.lt_or_ge n (k + 1) with hlt | hge
        · have hk : n ≤ k := Nat.lt_succ_iff.mp hlt
          have hek := ih hk
          have hstep : polledState f (k + 1) =
              if (refetchInterval (polledState f k)).isSome then f (k + 1)
              else polledState f k := rfl
          rw [hstep, hek, hstop]
          simp
        · have : n = k + 1 := Nat.le_antisymm hm hge
          rw [this]

/-- C6 witness: after the poller observes a `completed` snapshot without
error, a later tick leaves the observed state unchanged — polling has
stopped. -/
theorem c6_polling_stops_witness :
    polledState (fun _ => ⟨false, some CampaignStatus.completed⟩) 3 =
      polledState (fun _ => ⟨false, some CampaignStatus.completed⟩) 0 :=
  (c6_polling_stops (fun _ => ⟨false, some CampaignStatus.completed⟩) 0).2.2
    rfl 3 (by decide)

/-- C9: `apiCall` never resolves with a null (or undefined) value — an ok
result is always non-null JSON; a non-ok HTTP response is rejected with the
error determined by its status code (404, 500, 422, or the generic failure);
and abort and network failures are errors too, so every caller of
`campaignApi` receives either a non-null value or an exception. -/
theorem c9_apiCall_non_null (endpoint : String) (outcome : FetchOutcome) :
    (∀ v, apiCall endpoint outcome = Except.ok v → v.isNull = false) ∧
    (∀ r, outcome = FetchOutcome.response r → r.ok = false →
      apiCall endpoint outcome = Except.error
        (if r.status = 404 then "Endpoint not found: " ++ endpoint
         else if r.status = 500 then "Server error: " ++ r.statusText
         else if r.status = 422 then "Validation error"
         else "API call failed: " ++ toString r.status ++ " " ++
           r.statusText)) ∧
    apiCall endpoint FetchOutcome.abortTimeout =
      Except.error ("Request timeout: " ++ endpoint ++
        " took longer than 30 seconds") ∧
    apiCall endpoint FetchOutcome.networkFailure =
      Except.error ("Network error: Unable to reach server at " ++
        API_BASE_URL) := by
  refine ⟨fun v hv => ?_, fun r hr hok => ?_, rfl, rfl⟩
  · rcases outcome with r | _ | _
    · rcases r with ⟨ok, status, statusText, body⟩
      cases ok
      · simp only [apiCall, Bool.not_false, if_true] at hv
        split_ifs at hv
      · rcases body with e | data
        · simp [apiCall] at hv
        · simp only [apiCall, Bool.not_true, Bool.false_eq_true, if_false] at hv
          cases hdata : data.isNull
          · rw [hdata] at hv
            simp at hv
            rw [← hv]
            exact hdata
          · rw [hdata] at hv
            simp at hv
    · simp [apiCall] at hv
    · simp [apiCall] at hv
  · subst hr
    simp only [apiCall, hok, Bool.not_false, if_true]
    split_ifs <;> rfl

/-- C9 witness: a 200 response with a JSON object body resolves to that
non-null object. -/
theorem c9_apiCall_non_null_witness :
    Json.isNull (Json.obj []) = false :=
  (c9_apiCall_non_null "/health"
      (FetchOutcome.response ⟨true, 200, "OK", Except.ok (Json.obj [])⟩)).1
    (Json.obj []) rfl

/-- C8: the `ai_generated` tag of a stage result is `true` exactly when the
(validated) result came from the real external collaborator; whenever it is
`false` the result is the fallback generator's; the tag a stage completes
with is written into that agent's progress entry; and `get_status` surfaces
the stored progress entries — tags included — unchanged in every snapshot. -/
theorem c8_ai_generated_tag :
    (∀ (α : Type) (ext : Option α) (valid : α → Bool) (fb : α),
      ((runStageOutcome ext valid fb).2 = true ↔
        ∃ r, ext = some r ∧ valid r = true ∧
          (runStageOutcome ext valid fb).1 = r) ∧
      ((runStageOutcome ext valid fb).2 = false →
        (runStageOutcome ext valid fb).1 = fb)) ∧
    (∀ (c : Campaign) (a : AgentName) (ai : Bool),
      agentFlags (applyOp c (Op.completeStage a ai)).agent_progress =
        c.agent_progress.map (fun p =>
          (p.agent_name, if p.agent_name = a then ai else p.ai_generated))) ∧
    (∀ (store : CampaignStore) (id : String) (c : Campaign),
      get_status store id = Except.ok c ↔
        lookupCampaign store id = some c) := by
  refine ⟨fun α ext valid fb => ⟨?_, ?_⟩, fun c a ai => ?_, fun store id c => ?_⟩
  · rcases ext with _ | r
    · simp [runStageOutcome]
    · by_cases hv : valid r = true <;> simp [runStageOutcome, hv]
  · rcases ext with _ | r
    · intro _; rfl
    · by_cases hv : valid r = true <;> simp [runStageOutcome, hv]
  · simp only [applyOp, agentFlags, updateAgent, List.map_map]
    refine List.map_congr_left (fun p _ => ?_)
    by_cases h : p.agent_name = a <;> simp [h]
  · unfold get_status
    cases hl : lookupCampaign store id <;> simp

/-- C8 witness: a successful validated external call is tagged
`ai_generated = true`. -/
theorem c8_ai_generated_tag_witness :
    (runStageOutcome (some (fallbackTrends cozyBrief)) (fun _ => true)
        (fallbackTrends cozyBrief)).2 = true :=
  ((c8_ai_generated_tag.1 TrendAnalysis (some (fallbackTrends cozyBrief))
      (fun _ => true) (fallbackTrends cozyBrief)).1).mpr
    ⟨fallbackTrends cozyBrief, rfl, rfl, rfl⟩

theorem findPost_map_self (g : String → SocialMediaPost) :
    ∀ (ts : List String) (pl : String), pl ∈ ts →
      findPost (ts.map (fun x => (x, g x))) pl = some (g pl) := by
  intro ts
  induction ts with
  | nil => intro pl h; cases h
  | cons k rest ih =>
      intro pl h
      simp only [List.map_cons]
      by_cases hk : k = pl
      · subst hk; simp [findPost]
      · have hmem : pl ∈ rest := by
          rcases List.mem_cons.mp h with h1 | h1
          · exact absurd h1.symm hk
          · exact h1
        simp only [findPost, if_neg hk]
        exact ih pl hmem

theorem fallbackPost_valid (b : CampaignRequest) (pl : String) :
    validPost (fallbackPost b pl) = true := by
  unfold validPost fallbackPost
  simp only [Bool.and_eq_true, decide_eq_true_eq, ne_eq]
  refine ⟨fun he => ?_, trivial⟩
  have hlen := congrArg String.length he
  simp [String.length_append] at hlen
  exact absurd hlen.2 (by decide)

theorem fallbackContent_hasValid (b : CampaignRequest) (pl : String)
    (hm : pl ∈ b.target_platforms) :
    contentHasValidPost (fallbackContent b) pl = true := by
  unfold contentHasValidPost fallbackContent
  rw [findPost_map_self (fallbackPost b) _ pl hm]
  exact fallbackPost_valid b pl

theorem contentStage_hasValid (b : CampaignRequest)
    (ext : Option PlatformContent) (pl : String)
    (hm : pl ∈ b.target_platforms) :
    contentHasValidPost (contentStage b ext).1 pl = true := by
  unfold contentStage runStageOutcome
  rcases ext with _ | m
  · exact fallbackContent_hasValid b pl hm
  · by_cases hv : validContent b m = true
    · simp only [hv, if_true]
      exact List.all_eq_true.mp ((Bool.and_eq_true _ _).mp hv).1 pl hm
    · simp only [hv, if_false]
      exact fallbackContent_hasValid b pl hm

theorem fallbackContent_entries_valid (b : CampaignRequest) :
    ∀ kv ∈ fallbackContent b, validPost kv.2 = true := by
  intro kv hkv
  rcases List.mem_map.mp hkv with ⟨pl, _, rfl⟩
  exact fallbackPost_valid b pl

theorem contentStage_entries_valid (b : CampaignRequest)
    (ext : Option PlatformContent) :
    ∀ kv ∈ (contentStage b ext).1, validPost kv.2 = true := by
  unfold contentStage runStageOutcome
  rcases ext with _ | m
  · exact fallbackContent_entries_valid b
  · by_cases hv : validContent b m = true
    · simp only [hv, if_true]
      intro kv hkv
      exact List.all_eq_true.mp ((Bool.and_eq_true _ _).mp hv).2 kv hkv
    · simp only [hv, if_false]
      exact fallbackContent_entries_valid b

/-- C7: for a brief targeting `"instagram"` and `"twitter"`, the background
run ends `completed`, and whatever the external content call came back with
(validated real result or fallback), the aggregate's content map carries a
post under both keys, and every platform entry of that map has a non-empty
`text` and a `character_count` equal to the length of its `text`. -/
theorem c7_completed_content (b : CampaignRequest) (ext : ExternalOutcomes)
    (id : String) (now : Nat) (hi : "instagram" ∈ b.target_platforms)
    (ht : "twitter" ∈ b.target_platforms) :
    (runCampaign b ext id now).status = CampaignStatus.completed ∧
    ∀ r, (runCampaign b ext id now).results = some r →
      contentHasValidPost r.content "instagram" = true ∧
      contentHasValidPost r.content "twitter" = true ∧
      ∀ kv ∈ r.content, validPost kv.2 = true := by
  refine ⟨rfl, fun r hr => ?_⟩
  have hmap := congrArg (fun o => Option.map CampaignResults.content o) hr
  have hc : some (contentStage b ext.content).1 = some r.content := hmap
  have hc' := Option.some.inj hc
  rw [← hc']
  exact ⟨contentStage_hasValid b ext.content "instagram" hi,
    contentStage_hasValid b ext.content "twitter" ht,
    contentStage_entries_valid b ext.content⟩

/-- C7 witness: the cozy-coffee brief of spec §8, under total external
failure, completes with schema-valid instagram and twitter posts, and the
instagram entry of the stored map is itself schema-valid. -/
theorem c7_completed_content_witness :
    (runCampaign cozyBrief noExternal "c7" 0).status =
      CampaignStatus.completed ∧
    contentHasValidPost (fallbackContent cozyBrief) "instagram" = true ∧
    contentHasValidPost (fallbackContent cozyBrief) "twitter" = true ∧
    validPost (fallbackPost cozyBrief "instagram") = true := by
  have h := c7_completed_content cozyBrief noExternal "c7" 0
    (by decide) (by decide)
  have h2 := h.2 _ rfl
  refine ⟨h.1, h2.1, h2.2.1, ?_⟩
  exact h2.2.2 ("instagram", fallbackPost cozyBrief "instagram")
    (List.mem_cons_self _ _)

theorem filter_ne_append_perm (pid : String) :
    ∀ l : List String, l.Nodup → pid ∈ l →
      (l.filter (fun p => p ≠ pid) ++ [pid]).Perm l := by
  intro l
  induction l with
  | nil => intro _ h; cases h
  | cons a t ih =>
      intro hnd hmem
      by_cases ha : a = pid
      · subst ha
        have hnot : a ∉ t := (List.nodup_cons.mp hnd).1
        have hfa : (a :: t).filter (fun p => p ≠ a) = t := by
          rw [List.filter_cons]
          rw [if_neg (by simp)]
          exact List.filter_eq_self.mpr fun x hx =>
            decide_eq_true (fun (hxa : x = a) => hnot (hxa ▸ hx))
        rw [hfa]
        exact List.perm_append_singleton a t
      · have hmem' : pid ∈ t := by
          rcases List.mem_cons.mp hmem with h1 | h1
          · exact absurd h1.symm ha
          · exact h1
        have hfa : (a :: t).filter (fun p => p ≠ pid) =
            a :: t.filter (fun p => p ≠ pid) := by
          rw [List.filter_cons, if_pos (by simp [ha])]
        rw [hfa, List.cons_append]
        exact List.Perm.cons a (ih (List.nodup_cons.mp hnd).2 hmem')

/-- C10 counterexample: toggling `"instagram"` twice on the duplicate-free
list `["instagram", "twitter"]` yields `["twitter", "instagram"]`, not the
original list — the removal filters the id out of the middle and the second
toggle appends it at the end, so double application is not the identity as
the claim states. -/
theorem c10_toggle_counterexample :
    handlePlatformToggle
        (handlePlatformToggle ["instagram", "twitter"] "instagram")
        "instagram" ≠ ["instagram", "twitter"] := by
  decide

/-- C10 (amended): on a duplicate-free list, one application of
`handlePlatformToggle` removes the id if present (an order-preserving filter
of the other entries) and appends it at the end if absent, and the result is
again duplicate-free; two successive applications with the same id restore
the original list exactly when the id was absent, and when it was present
they restore it only up to permutation — the id moves to the end. -/
theorem c10_toggle_amended (l : List String) (pid : String)
    (hnd : l.Nodup) :
    (pid ∈ l →
      handlePlatformToggle l pid = l.filter (fun p => p ≠ pid) ∧
      handlePlatformToggle (handlePlatformToggle l pid) pid =
        l.filter (fun p => p ≠ pid) ++ [pid] ∧
      (handlePlatformToggle (handlePlatformToggle l pid) pid).Perm l) ∧
    (pid ∉ l →
      handlePlatformToggle l pid = l ++ [pid] ∧
      handlePlatformToggle (handlePlatformToggle l pid) pid = l) ∧
    (handlePlatformToggle l pid).Nodup := by
  have hfself : ∀ t : List String, pid ∉ t →
      t.filter (fun p => p ≠ pid) = t := by
    intro t hnot
    exact List.filter_eq_self.mpr fun x hx =>
      decide_eq_true (fun (hxa : x = pid) => hnot (hxa ▸ hx))
  refine ⟨fun hmem => ?_, fun hnot => ?_, ?_⟩
  · have h1 : handlePlatformToggle l pid = l.filter (fun p => p ≠ pid) := by
      simp [handlePlatformToggle, hmem]
    have hnotf : pid ∉ l.filter (fun p => p ≠ pid) := by
      intro hf
      have := (List.mem_filter.mp hf).2
      simp at this
    have h2 : handlePlatformToggle (handlePlatformToggle l pid) pid =
        l.filter (fun p => p ≠ pid) ++ [pid] := by
      rw [h1]
      simp [handlePlatformToggle, hnotf]
    refine ⟨h1, h2, ?_⟩
    rw [h2]
    exact filter_ne_append_perm pid l hnd hmem
  · have h1 : handlePlatformToggle l pid = l ++ [pid] := by
      simp [handlePlatformToggle, hnot]
    refine ⟨h1, ?_⟩
    rw [h1]
    have hmem2 : pid ∈ l ++ [pid] := by simp
    have hfl : (l ++ [pid]).filter (fun p => p ≠ pid) = l := by
      rw [List.filter_append, hfself l hnot]
      simp
    unfold handlePlatformToggle
    rw [if_pos hmem2]
    exact hfl
  · by_cases hmem : pid ∈ l
    · simp only [handlePlatformToggle, if_pos hmem]
      exact hnd.filter _
    · simp only [handlePlatformToggle, if_neg hmem]
      exact List.Nodup.append hnd (List.nodup_singleton pid)
        (fun x hx hx' => hmem ((List.mem_singleton.mp hx') ▸ hx))

/-- C10 (amended) witness: toggling an absent id twice restores the original
list. -/
theorem c10_toggle_amended_witness :
    handlePlatformToggle (handlePlatformToggle ["instagram"] "twitter")
      "twitter" = ["instagram"] :=
  ((c10_toggle_amended ["instagram"] "twitter" (by decide)).2.1
    (by decide)).2

end Vyralflow
